import Mathlib

/-!
Verification of the fpmsyncd event loop (src/fpmsyncd/fpmsyncd.cpp):
the adaptive write-flush controller, the warm-restart / EOIU
reconciliation state machine, the suppression reconfiguration handler,
and the connection supervisor. The daemon's state is embedded as a
record, and the body of the inner dispatch loop as a step function over
that record driven by the event that select reported ready.
-/

set_option autoImplicit false

namespace Fpmsyncd

/-- gSelectTimeout value meaning an infinite select wait (C macro INFINITE, -1). -/
def INFINITE : Int := -1

/-- FLUSH_TIMEOUT, 500 milliseconds; gFlushTimeout is initialised to it and
never reassigned anywhere in the file. -/
def gFlushTimeout : Int := 500

/-- SMALL_TRAFFIC: the pipeline is considered lightly loaded below 500 entries. -/
def SMALL_TRAFFIC : Nat := 500

/-- DEFAULT_ROUTING_RESTART_INTERVAL, seconds. -/
def DEFAULT_ROUTING_RESTART_INTERVAL : Nat := 120

/-- DEFAULT_EOIU_HOLD_INTERVAL, seconds. -/
def DEFAULT_EOIU_HOLD_INTERVAL : Nat := 3

/-- Result of one call to flushPipeline: whether pipeline.flush() was invoked,
the pipeline size afterwards, and the value left in gSelectTimeout. -/
structure FlushResult where
  flushed : Bool
  size : Nat
  selectTimeout : Int
deriving DecidableEq

/-- The function flushPipeline (fpmsyncd.cpp lines 326-356): given the number
of pending entries and the measured idle time, either flush the pipeline and
reset gSelectTimeout to INFINITE, or defer and set gSelectTimeout to
gFlushTimeout - idle. -/
def flushPipeline (remaining : Nat) (idle : Int) : FlushResult :=
  if remaining = 0 then
    { flushed := false, size := 0, selectTimeout := INFINITE }
  else if remaining < SMALL_TRAFFIC ∨ idle ≥ gFlushTimeout ∨ idle ≤ 0 then
    { flushed := true, size := 0, selectTimeout := INFINITE }
  else
    { flushed := false, size := remaining, selectTimeout := gFlushTimeout - idle }

/-- The string literal "reached". -/
def reachedS : String := "reached"

/-- The string literal "enabled". -/
def enabledS : String := "enabled"

/-- The string literal "localhost". -/
def localhostS : String := "localhost"

/-- The field name "suppress-fib-pending". -/
def suppressFieldS : String := "suppress-fib-pending"

/-- SET_COMMAND from the common library: the string "SET". -/
def SET_COMMAND : String := "SET"

/-- eoiuFlagsSet (fpmsyncd.cpp lines 52-70): true iff the state fields read
for IPv4-eoiu and IPv6-eoiu both equal "reached". -/
def eoiuFlagsSet (v4 v6 : String) : Bool :=
  if v4 != reachedS then false
  else if v6 != reachedS then false
  else true

/-- The enum of warm-restart helper states used by this file:
WSDISABLED (set when warm restart is off), RESTORING (in progress after
checkAndStart), RECONCILED (terminal). -/
inductive WarmState
  | WSDISABLED
  | RESTORING
  | RECONCILED
deriving DecidableEq

/-- Modelled from the spec: the warm-restart helper collaborator
(warmRestartHelper, not among this repository's sources) exposes
checkAndStart/inProgress/isReconciled/setState, and the translator's
onWarmStartEnd hook performs the sole terminal transition to RECONCILED
(spec 4.4: the reconciliation-complete action is the sole terminal
transition to RECONCILED). inProgress corresponds to state = RESTORING and
isReconciled to state = RECONCILED. -/
def onWarmStartEnd (_w : WarmState) : WarmState :=
  WarmState.RECONCILED

/-- The primitive externally visible steps taken by the main function, used
to state ordering properties. -/
inductive Action
  | flushPipelineA
  | acceptA
  | runRestorationA
  | armWarmTimerA
  | armCheckTimerA
  | setDisabledA
  | registerChannelA
  | markRoutesOffloadedA
  | attachChannelA
  | deregisterChannelA
  | releaseChannelA
  | setSuppressionA (b : Bool)
  | deliverResponseA (key : String)
deriving BEq, DecidableEq

/-- One entry popped from the device-metadata subscriber:
key, operation, field-value list. -/
structure KOFV where
  key : String
  op : String
  fvs : List (String × String)
deriving DecidableEq

/-- The suppress-fib-pending toggle body (fpmsyncd.cpp lines 274-294):
given the current suppression flag and the new field value, return the new
flag and the ordered list of primitive steps taken. -/
def handleSuppressField (enabled : Bool) (v : String) : Bool × List Action :=
  let shouldEnable := v == enabledS
  if shouldEnable && !enabled then
    (true, [Action.attachChannelA, Action.setSuppressionA true, Action.registerChannelA])
  else if !shouldEnable && enabled then
    (false, [Action.markRoutesOffloadedA, Action.setSuppressionA false,
             Action.deregisterChannelA, Action.releaseChannelA])
  else
    (enabled, [])

/-- The loop over the field-value pairs of one config record
(fpmsyncd.cpp lines 264-295): entries whose field is not
suppress-fib-pending are skipped. -/
def handleFvs (enabled : Bool) : List (String × String) → Bool × List Action
  | [] => (enabled, [])
  | (f, v) :: rest =>
    if f != suppressFieldS then handleFvs enabled rest
    else
      let r := handleSuppressField enabled v
      let r2 := handleFvs r.1 rest
      (r2.1, r.2 ++ r2.2)

/-- The loop over a drained config batch (fpmsyncd.cpp lines 248-296):
records whose operation is not SET or whose key is not localhost are
skipped. -/
def handleConfigBatch (enabled : Bool) : List KOFV → Bool × List Action
  | [] => (enabled, [])
  | t :: rest =>
    if t.op != SET_COMMAND then handleConfigBatch enabled rest
    else if t.key != localhostS then handleConfigBatch enabled rest
    else
      let r := handleFvs enabled t.fvs
      let r2 := handleConfigBatch r.1 rest
      (r2.1, r.2 ++ r2.2)

/-- Which code path performed a pipeline.flush() in the current step:
the write-flush controller (flushPipeline) or the reconciliation branch. -/
inductive FlushSrc
  | controller
  | reconcile
deriving DecidableEq

/-- The daemon state observed at the top of the inner dispatch loop:
session flags, which selectables are registered, timer intervals in
seconds, the suppression flag and whether the response channel is
registered, the pipeline size, gSelectTimeout, per-session counters of the
two reconciliation-branch triggers, and per-step bookkeeping (who flushed,
whether the controller ran). -/
structure St where
  warmStartEnabled : Bool
  warmState : WarmState
  warmReg : Bool
  warmInterval : Nat
  checkReg : Bool
  checkInterval : Nat
  holdReg : Bool
  holdInterval : Nat
  holdEverArmed : Bool
  suppression : Bool
  chanReg : Bool
  size : Nat
  selTimeout : Int
  warmFires : Nat
  holdFires : Nat
  flushedBy : Option FlushSrc
  ctrlRan : Bool
deriving DecidableEq

/-- The events select can report to the dispatch loop. checkFire carries the
two state-table reads made by eoiuFlagsSet and the configured eoiu-hold
interval (0 = unset); feed carries the number of entries the translator
enqueued and the pipeline idle-time reading; idleWake is a select timeout
(no source ready) with the idle-time reading. -/
inductive Ev
  | warmFire
  | holdFire
  | checkFire (v4 v6 : String) (holdIval : Nat)
  | cfg (batch : List KOFV)
  | resp (keys : List String)
  | feed (enq : Nat) (idleT : Int)
  | idleWake (idleT : Int)
deriving DecidableEq

/-- The tail of the dispatch chain (fpmsyncd.cpp lines 311-314): when the
ready source was none of the timers/subscribers/channels, run the
write-flush controller iff warm restart is disabled or already reconciled. -/
def stepAfterSources (s : St) (idleT : Int) : St :=
  if s.warmStartEnabled = false ∨ s.warmState = WarmState.RECONCILED then
    let r := flushPipeline s.size idleT
    { s with size := r.size, selTimeout := r.selectTimeout,
             flushedBy := if r.flushed then some FlushSrc.controller else none,
             ctrlRan := true }
  else
    { s with flushedBy := none, ctrlRan := false }

/-- One iteration of the inner dispatch loop (fpmsyncd.cpp lines 179-315),
as a function of the state and the event select reported. -/
def dispatchStep (s : St) (e : Ev) : St :=
  match e with
  | Ev.warmFire =>
    { s with warmState := onWarmStartEnd s.warmState,
             warmFires := s.warmFires + 1,
             warmReg := false, size := 0,
             flushedBy := some FlushSrc.reconcile, ctrlRan := false }
  | Ev.holdFire =>
    { s with warmState := onWarmStartEnd s.warmState,
             holdFires := s.holdFires + 1,
             holdReg := false, size := 0,
             flushedBy := some FlushSrc.reconcile, ctrlRan := false }
  | Ev.checkFire v4 v6 ival =>
    if s.warmState = WarmState.RESTORING then
      if eoiuFlagsSet v4 v6 then
        { s with holdInterval := if ival = 0 then DEFAULT_EOIU_HOLD_INTERVAL else ival,
                 holdReg := true, holdEverArmed := true, checkReg := false,
                 flushedBy := none, ctrlRan := false }
      else
        { s with checkInterval := 1, flushedBy := none, ctrlRan := false }
    else
      { s with checkReg := false, flushedBy := none, ctrlRan := false }
  | Ev.cfg batch =>
    let r := handleConfigBatch s.suppression batch
    { s with suppression := r.1, chanReg := r.1,
             flushedBy := none, ctrlRan := false }
  | Ev.resp _keys =>
    { s with flushedBy := none, ctrlRan := false }
  | Ev.feed enq idleT =>
    stepAfterSources { s with size := s.size + enq } idleT
  | Ev.idleWake idleT =>
    stepAfterSources s idleT

/-- Whether select can report this event in this state: a timer fires only
while registered, and the response channel delivers only while registered. -/
def validEv (s : St) : Ev → Bool
  | Ev.warmFire => s.warmReg
  | Ev.holdFire => s.holdReg
  | Ev.checkFire _ _ _ => s.checkReg
  | Ev.resp _ => s.chanReg
  | Ev.cfg _ => true
  | Ev.feed _ _ => true
  | Ev.idleWake _ => true

/-- Run a list of events through the dispatch loop. -/
def runTrace (s : St) : List Ev → St
  | [] => s
  | e :: es => runTrace (dispatchStep s e) es

/-- A trace is valid when every event is possible in the state it meets. -/
def validTrace (s : St) : List Ev → Bool
  | [] => true
  | e :: es => validEv s e && validTrace (dispatchStep s e) es

/-- The session-setup inputs read from external collaborators:
checkAndStart, getRestartTimer (0 = unset) and runRestoration results. -/
structure InitParams where
  warmStartEnabled : Bool
  restartTimer : Nat
  restorationDidWork : Bool
deriving DecidableEq

/-- One supervisor iteration up to the first select (fpmsyncd.cpp lines
115-177): flush leftover writes, accept a connection, register sources
(the response channel iff suppression is on, carried over from the prior
session), run the warm-restart setup, and reset gSelectTimeout to
INFINITE. Returns the state at the loop's first wait and the ordered
primitive steps taken. -/
def sessionInit (prior : St) (p : InitParams) : St × List Action :=
  let base : St :=
    { warmStartEnabled := p.warmStartEnabled
      warmState := if p.warmStartEnabled then WarmState.RESTORING else WarmState.WSDISABLED
      warmReg := p.warmStartEnabled && p.restorationDidWork
      warmInterval := if p.warmStartEnabled then
          (if p.restartTimer = 0 then DEFAULT_ROUTING_RESTART_INTERVAL else p.restartTimer)
        else 0
      checkReg := p.warmStartEnabled
      checkInterval := if p.warmStartEnabled then 5 else 0
      holdReg := false
      holdInterval := 0
      holdEverArmed := false
      suppression := prior.suppression
      chanReg := prior.suppression
      size := 0
      selTimeout := INFINITE
      warmFires := 0
      holdFires := 0
      flushedBy := none
      ctrlRan := false }
  let acts : List Action :=
    [Action.flushPipelineA, Action.acceptA]
    ++ (if prior.suppression then [Action.registerChannelA] else [])
    ++ (if p.warmStartEnabled then
          [Action.runRestorationA]
          ++ (if p.restorationDidWork then [Action.armWarmTimerA] else [])
          ++ [Action.armCheckTimerA]
        else [Action.setDisabledA])
  (base, acts)

/-- The fault kinds that can escape the inner loop, and the supervisor's
catch clause (fpmsyncd.cpp lines 317-320): only the feed's
connection-closed condition is caught; everything else propagates and
terminates the process. -/
inductive Fault
  | connectionClosed
  | badAlloc
  | logicError
  | otherFault
deriving DecidableEq

/-- What becomes of a fault that reaches the supervisor loop. -/
inductive SupvResult
  | reconnect
  | terminate
deriving DecidableEq

/-- The supervisor catch clause: reconnect on connection-closed, propagate
(terminate) otherwise. -/
def superviseCatch : Fault → SupvResult
  | Fault.connectionClosed => SupvResult.reconnect
  | Fault.badAlloc => SupvResult.terminate
  | Fault.logicError => SupvResult.terminate
  | Fault.otherFault => SupvResult.terminate

/-- C1: for every pending-write-count c > 0 and idle-duration d, the pipeline
is flushed iff c < 500 or d >= 500 or d <= 0, and in exactly the remaining
case no flush happens and the next select timeout is 500 - d. -/
theorem flushController_c1 (c : Nat) (d : Int) (h : 0 < c) :
    ((flushPipeline c d).flushed = true ↔ (c < 500 ∨ 500 ≤ d ∨ d ≤ 0))
    ∧ (¬(c < 500 ∨ 500 ≤ d ∨ d ≤ 0) →
        (flushPipeline c d).flushed = false
        ∧ (flushPipeline c d).selectTimeout = 500 - d) := by
  have hc : ¬ c = 0 := by omega
  unfold flushPipeline SMALL_TRAFFIC gFlushTimeout
  simp only [hc, if_false, ge_iff_le]
  constructor
  · by_cases hcond : (c < 500 ∨ 500 ≤ d ∨ d ≤ 0)
    · simp [hcond]
    · simp [hcond]
  · intro hcond
    simp [hcond]

/-- Witness for C1 at c = 600, d = 100: the deferral case. -/
theorem flushController_c1_witness :
    (flushPipeline 600 100).flushed = false
    ∧ (flushPipeline 600 100).selectTimeout = 500 - 100 :=
  (flushController_c1 600 100 (by decide)).2 (by decide)

/-- A concrete prior-session state (suppression off, a finite leftover
gSelectTimeout of 250). -/
def priorEx : St :=
  { warmStartEnabled := false, warmState := WarmState.WSDISABLED,
    warmReg := false, warmInterval := 0,
    checkReg := false, checkInterval := 0,
    holdReg := false, holdInterval := 0, holdEverArmed := false,
    suppression := false, chanReg := false,
    size := 0, selTimeout := 250,
    warmFires := 0, holdFires := 0,
    flushedBy := none, ctrlRan := false }

/-- Concrete session parameters: warm restart enabled, no configured restart
timer, restoration reported work (so the deadline timer is armed). -/
def pEx : InitParams :=
  { warmStartEnabled := true, restartTimer := 0, restorationDidWork := true }

/-- A concrete event trace: the poll tick sees both eoiu flags reached and
arms the hold timer; the hold timer fires (first reconciliation-branch
execution); a feed burst of 600 entries at idle 100 defers the flush and
sets a finite select timeout; then the still-armed warm-start deadline
timer fires (second reconciliation-branch execution). -/
def exTrace : List Ev :=
  [Ev.checkFire reachedS reachedS 0, Ev.holdFire, Ev.feed 600 100, Ev.warmFire]

/-- Counterexample to C2 as stated: a valid session trace in which the
reconciliation-complete branch executes twice, once triggered by the EOIU
hold timer and once by the warm-start deadline timer, because both timers
were armed at the same time. -/
theorem reconcileOnce_counterexample :
    validTrace (sessionInit priorEx pEx).1 exTrace = true
    ∧ (runTrace (sessionInit priorEx pEx).1 exTrace).warmFires
      + (runTrace (sessionInit priorEx pEx).1 exTrace).holdFires = 2 := by
  decide

/-- Counterexample to C3 as stated: at the end of the same valid trace, the
last step is the forced flush of the reconciliation branch, the
pending-write-count is 0, yet the select timeout is 400, not INFINITE,
because that branch's pipeline.flush() never touches gSelectTimeout. -/
theorem flushTimeout_counterexample :
    validTrace (sessionInit priorEx pEx).1 exTrace = true
    ∧ (runTrace (sessionInit priorEx pEx).1 exTrace).flushedBy = some FlushSrc.reconcile
    ∧ (runTrace (sessionInit priorEx pEx).1 exTrace).size = 0
    ∧ ¬ (runTrace (sessionInit priorEx pEx).1 exTrace).selTimeout = INFINITE := by
  decide

/-- When flushPipeline flushes, it leaves size 0 and an INFINITE timeout. -/
theorem flushPipeline_flushed (c : Nat) (d : Int)
    (h : (flushPipeline c d).flushed = true) :
    (flushPipeline c d).size = 0 ∧ (flushPipeline c d).selectTimeout = INFINITE := by
  unfold flushPipeline at *
  split_ifs at *
  all_goals simp_all

/-- The controller tail leaves size 0 and an INFINITE timeout whenever it
flushed. -/
theorem stepAfterSources_post (s : St) (t : Int)
    (h : (stepAfterSources s t).flushedBy.isSome = true) :
    (stepAfterSources s t).size = 0 ∧ (stepAfterSources s t).selTimeout = INFINITE := by
  unfold stepAfterSources at *
  split_ifs at * with hg
  · by_cases hf : (flushPipeline s.size t).flushed = true
    · have hp := flushPipeline_flushed s.size t hf
      simp_all
    · simp_all
  · simp_all

/-- C3 (amended): after every step that flushed the pipeline the
pending-write-count is 0, and when the flush was performed by the
write-flush controller the select timeout is additionally reset to
INFINITE; the forced flush of the reconciliation branch leaves the select
timeout unchanged. -/
theorem flushPostcondition_c3 (s : St) (e : Ev)
    (h : (dispatchStep s e).flushedBy.isSome = true) :
    (dispatchStep s e).size = 0
    ∧ ((dispatchStep s e).flushedBy = some FlushSrc.controller →
        (dispatchStep s e).selTimeout = INFINITE)
    ∧ ((dispatchStep s e).flushedBy = some FlushSrc.reconcile →
        (dispatchStep s e).selTimeout = s.selTimeout) := by
  cases e with
  | warmFire => simp [dispatchStep]
  | holdFire => simp [dispatchStep]
  | checkFire v4 v6 ival =>
    simp only [dispatchStep] at h ⊢
    split_ifs at * <;> simp_all
  | cfg batch => simp [dispatchStep] at h
  | resp keys => simp [dispatchStep] at h
  | feed enq idleT =>
    have hp := stepAfterSources_post { s with size := s.size + enq } idleT h
    simp only [dispatchStep] at *
    refine ⟨hp.1, fun _ => hp.2, fun hr => ?_⟩
    unfold stepAfterSources at hr
    split_ifs at hr
    all_goals simp_all
  | idleWake idleT =>
    have hp := stepAfterSources_post s idleT h
    simp only [dispatchStep] at *
    refine ⟨hp.1, fun _ => hp.2, fun hr => ?_⟩
    unfold stepAfterSources at hr
    split_ifs at hr
    all_goals simp_all

/-- A small concrete state with three pending writes, used in witnesses. -/
def stFlushEx : St :=
  { priorEx with size := 3 }

/-- Witness for C3 (amended): an idle wake with 3 pending writes flushes via
the controller and resets both the size and the timeout. -/
theorem flushPostcondition_c3_witness :
    (dispatchStep stFlushEx (Ev.idleWake 10)).size = 0
    ∧ (dispatchStep stFlushEx (Ev.idleWake 10)).selTimeout = INFINITE := by
  have hp := flushPostcondition_c3 stFlushEx (Ev.idleWake 10) (by decide)
  exact ⟨hp.1, hp.2.1 (by decide)⟩

/-- C9: an idle wake (select timeout, no registered source ready) invokes
the write-flush controller step iff warm restart is disabled for the
session or the helper reports reconciled; in particular, while the state
is RESTORING the controller is not invoked on idle wakes. -/
theorem idleWakeGate_c9 (s : St) (t : Int) :
    (dispatchStep s (Ev.idleWake t)).ctrlRan = true
      ↔ (s.warmStartEnabled = false ∨ s.warmState = WarmState.RECONCILED) := by
  simp only [dispatchStep, stepAfterSources]
  split_ifs with hg <;> simp_all

/-- Witness for C9 at a concrete state with warm restart disabled: the
controller runs on the idle wake. -/
theorem idleWakeGate_c9_witness :
    (dispatchStep priorEx (Ev.idleWake 10)).ctrlRan = true :=
  (idleWakeGate_c9 priorEx 10).mpr (Or.inl rfl)

/-- C10: at session start, before the dispatch loop's first wait, the select
timeout is reset to INFINITE (and the leftover pipeline content has been
flushed), whatever finite deferral timeout the previous session left
behind. -/
theorem sessionTimeoutReset_c10 (prior : St) (p : InitParams) :
    (sessionInit prior p).1.selTimeout = INFINITE
    ∧ (sessionInit prior p).1.size = 0 := by
  exact ⟨rfl, rfl⟩

/-- C7: every supervisor iteration first flushes leftover pending writes and
only then blocks to accept a new feed connection; and the catch clause
recovers exactly from the feed connection-closed fault, while every other
fault propagates and terminates the process. -/
theorem supervisorRecovery_c7 (prior : St) (p : InitParams) (f : Fault) :
    ((sessionInit prior p).2.take 2 = [Action.flushPipelineA, Action.acceptA])
    ∧ (superviseCatch f = SupvResult.reconnect ↔ f = Fault.connectionClosed) := by
  constructor
  · rfl
  · cases f <;> simp [superviseCatch]

/-- Witness for C7: the connection-closed fault is recovered. -/
theorem supervisorRecovery_c7_witness :
    superviseCatch Fault.connectionClosed = SupvResult.reconnect :=
  (supervisorRecovery_c7 priorEx pEx Fault.connectionClosed).2.mpr rfl

/-- C5: with warm restart enabled the restoration replay always runs, the
deadline timer is armed exactly when replay reported work with duration
the configured restart timer or 120 s when unset, and the EOIU poll timer
is always armed at 5 s; with warm restart disabled the helper state is set
to WSDISABLED and no reconciliation timer is armed. -/
theorem warmStartInit_c5 (prior : St) (p : InitParams) :
    (p.warmStartEnabled = true →
        Action.runRestorationA ∈ (sessionInit prior p).2
        ∧ (sessionInit prior p).1.warmReg = p.restorationDidWork
        ∧ (sessionInit prior p).1.warmInterval
            = (if p.restartTimer = 0 then DEFAULT_ROUTING_RESTART_INTERVAL
               else p.restartTimer)
        ∧ (sessionInit prior p).1.checkReg = true
        ∧ (sessionInit prior p).1.checkInterval = 5
        ∧ (sessionInit prior p).1.warmState = WarmState.RESTORING)
    ∧ (p.warmStartEnabled = false →
        (sessionInit prior p).1.warmState = WarmState.WSDISABLED
        ∧ (sessionInit prior p).1.warmReg = false
        ∧ (sessionInit prior p).1.checkReg = false
        ∧ (sessionInit prior p).1.holdReg = false
        ∧ Action.runRestorationA ∉ (sessionInit prior p).2) := by
  obtain ⟨we, rt, dw⟩ := p
  constructor
  · intro h
    subst h
    refine ⟨?_, rfl, rfl, rfl, rfl, rfl⟩
    simp [sessionInit]
  · intro h
    subst h
    refine ⟨rfl, rfl, rfl, rfl, ?_⟩
    simp [sessionInit]

/-- Witness for C5 at the concrete enabled parameters: restoration ran and
both timers are armed with the default intervals. -/
theorem warmStartInit_c5_witness :
    Action.runRestorationA ∈ (sessionInit priorEx pEx).2
    ∧ (sessionInit priorEx pEx).1.warmReg = true
    ∧ (sessionInit priorEx pEx).1.warmInterval = 120 := by
  have hp := (warmStartInit_c5 priorEx pEx).1 rfl
  exact ⟨hp.1, hp.2.1, hp.2.2.1⟩

/-- C4: on an EOIU poll tick, if reconciliation is no longer in progress the
poll timer is deregistered and nothing else changes; if in progress and
both state-table reads are "reached" the poll timer is deregistered and
the hold timer armed with the configured duration or 3 s by default; and
otherwise the poll timer is re-armed at a 1 s interval and the hold timer
is not armed. Both flags count as set exactly when the two reads equal
"reached". -/
theorem eoiuPollTick_c4 (s : St) (v4 v6 : String) (ival : Nat)
    (hreg : s.checkReg = true) :
    (s.warmState ≠ WarmState.RESTORING →
        (dispatchStep s (Ev.checkFire v4 v6 ival)).checkReg = false
        ∧ (dispatchStep s (Ev.checkFire v4 v6 ival)).holdReg = s.holdReg
        ∧ (dispatchStep s (Ev.checkFire v4 v6 ival)).holdInterval = s.holdInterval
        ∧ (dispatchStep s (Ev.checkFire v4 v6 ival)).checkInterval = s.checkInterval
        ∧ (dispatchStep s (Ev.checkFire v4 v6 ival)).size = s.size
        ∧ (dispatchStep s (Ev.checkFire v4 v6 ival)).selTimeout = s.selTimeout
        ∧ (dispatchStep s (Ev.checkFire v4 v6 ival)).warmState = s.warmState)
    ∧ (s.warmState = WarmState.RESTORING → eoiuFlagsSet v4 v6 = true →
        (dispatchStep s (Ev.checkFire v4 v6 ival)).checkReg = false
        ∧ (dispatchStep s (Ev.checkFire v4 v6 ival)).holdReg = true
        ∧ (dispatchStep s (Ev.checkFire v4 v6 ival)).holdInterval
            = (if ival = 0 then DEFAULT_EOIU_HOLD_INTERVAL else ival))
    ∧ (s.warmState = WarmState.RESTORING → eoiuFlagsSet v4 v6 = false →
        (dispatchStep s (Ev.checkFire v4 v6 ival)).checkReg = true
        ∧ (dispatchStep s (Ev.checkFire v4 v6 ival)).holdReg = s.holdReg
        ∧ (dispatchStep s (Ev.checkFire v4 v6 ival)).checkInterval = 1)
    ∧ (eoiuFlagsSet v4 v6 = true ↔ (v4 = reachedS ∧ v6 = reachedS)) := by
  refine ⟨?_, ?_, ?_, ?_⟩
  · intro hs
    simp [dispatchStep, hs]
  · intro hs hf
    simp [dispatchStep, hs, hf]
  · intro hs hf
    simp [dispatchStep, hs, hf, hreg]
  · unfold eoiuFlagsSet
    split_ifs with h1 h2 <;> simp_all [bne_iff_ne]

/-- Witness for C4 at a concrete RESTORING state whose poll tick sees both
flags reached and no configured hold interval: the hold timer is armed at
the 3 s default and the poll timer deregistered. -/
theorem eoiuPollTick_c4_witness :
    (dispatchStep (sessionInit priorEx pEx).1 (Ev.checkFire reachedS reachedS 0)).checkReg = false
    ∧ (dispatchStep (sessionInit priorEx pEx).1 (Ev.checkFire reachedS reachedS 0)).holdReg = true
    ∧ (dispatchStep (sessionInit priorEx pEx).1 (Ev.checkFire reachedS reachedS 0)).holdInterval = 3 := by
  have hp := (eoiuPollTick_c4 (sessionInit priorEx pEx).1 reachedS reachedS 0 (by decide)).2.1
    (by decide) (by decide)
  exact ⟨hp.1, hp.2.1, hp.2.2⟩

/-- The string literal "disabled". -/
def disabledS : String := "disabled"

/-- C6: the enabled-to-disabled toggle marks pending-suppressed routes
offloaded strictly before the response feed is deregistered and released;
the disabled-to-enabled toggle attaches and registers the feed (marking
suppression enabled) within the handler, and a response notification can
only ever be dispatched in a state where the feed is registered; a toggle
to the current state is a no-op. -/
theorem suppressionToggle_c6 (enabled : Bool) (v : String) :
    ((enabled = true ∧ (v == enabledS) = false) →
        handleSuppressField enabled v
          = (false, [Action.markRoutesOffloadedA, Action.setSuppressionA false,
                     Action.deregisterChannelA, Action.releaseChannelA])
        ∧ List.indexOf Action.markRoutesOffloadedA (handleSuppressField enabled v).2
            < List.indexOf Action.deregisterChannelA (handleSuppressField enabled v).2)
    ∧ ((enabled = false ∧ (v == enabledS) = true) →
        handleSuppressField enabled v
          = (true, [Action.attachChannelA, Action.setSuppressionA true,
                    Action.registerChannelA]))
    ∧ ((v == enabledS) = enabled → handleSuppressField enabled v = (enabled, []))
    ∧ (∀ s keys, validEv s (Ev.resp keys) = true → s.chanReg = true) := by
  refine ⟨?_, ?_, ?_, ?_⟩
  · rintro ⟨he, hv⟩
    subst he
    have heq : handleSuppressField true v
        = (false, [Action.markRoutesOffloadedA, Action.setSuppressionA false,
                   Action.deregisterChannelA, Action.releaseChannelA]) := by
      simp [handleSuppressField, hv]
    rw [heq]
    exact ⟨rfl, by decide⟩
  · rintro ⟨he, hv⟩
    subst he
    simp [handleSuppressField, hv]
  · intro hv
    cases enabled <;> simp_all [handleSuppressField]
  · intro s keys h
    exact h

/-- Witness for C6: the concrete disable toggle emits the four-step trace
with mark-offloaded first, and the concrete enable toggle attaches and
registers the feed. -/
theorem suppressionToggle_c6_witness :
    handleSuppressField true disabledS
      = (false, [Action.markRoutesOffloadedA, Action.setSuppressionA false,
                 Action.deregisterChannelA, Action.releaseChannelA])
    ∧ handleSuppressField false enabledS
      = (true, [Action.attachChannelA, Action.setSuppressionA true,
                Action.registerChannelA]) := by
  have h1 := (suppressionToggle_c6 true disabledS).1 ⟨rfl, by decide⟩
  have h2 := (suppressionToggle_c6 false enabledS).2.1 ⟨rfl, by decide⟩
  exact ⟨h1.1, h2⟩

/-- The EOIU timer mutual-exclusion invariant: the poll and hold timers are
never both registered, and once the hold timer has ever been armed the
poll timer is never registered again. -/
abbrev EoiuInv (s : St) : Prop :=
  (s.checkReg = true → s.holdReg = false)
  ∧ (s.holdEverArmed = true → s.checkReg = false)

/-- Every dispatch step preserves the EOIU timer mutual exclusion. -/
theorem eoiuInv_step (s : St) (e : Ev) (h : EoiuInv s) : EoiuInv (dispatchStep s e) := by
  obtain ⟨h1, h2⟩ := h
  cases e with
  | warmFire => exact ⟨h1, h2⟩
  | holdFire => exact ⟨fun _ => rfl, h2⟩
  | checkFire v4 v6 ival =>
    simp only [dispatchStep]
    split_ifs with hs hf hi
    · exact ⟨fun hc => Bool.noConfusion hc, fun _ => rfl⟩
    · exact ⟨fun hc => Bool.noConfusion hc, fun _ => rfl⟩
    · exact ⟨h1, h2⟩
    · exact ⟨fun hc => Bool.noConfusion hc, fun _ => rfl⟩
  | cfg batch => exact ⟨h1, h2⟩
  | resp keys => exact ⟨h1, h2⟩
  | feed enq idleT =>
    simp only [dispatchStep, stepAfterSources]
    split_ifs
    all_goals exact ⟨h1, h2⟩
  | idleWake idleT =>
    simp only [dispatchStep, stepAfterSources]
    split_ifs
    all_goals exact ⟨h1, h2⟩

/-- The EOIU timer mutual exclusion propagates along any trace. -/
theorem eoiuInv_trace (s : St) (evs : List Ev) (h : EoiuInv s) :
    EoiuInv (runTrace s evs) := by
  induction evs generalizing s with
  | nil => exact h
  | cons e es ih => exact ih (dispatchStep s e) (eoiuInv_step s e h)

/-- C8: along every valid session trace, at most one of the EOIU poll timer
and the EOIU hold timer is registered with the select multiplexer, and
once the hold timer has been armed (which happens in the same dispatch
step that deregisters the poll timer) the poll timer is never registered
again. -/
theorem eoiuTimersMutex_c8 (prior : St) (p : InitParams) (evs : List Ev)
    (_h : validTrace (sessionInit prior p).1 evs = true) :
    ((runTrace (sessionInit prior p).1 evs).checkReg = true →
        (runTrace (sessionInit prior p).1 evs).holdReg = false)
    ∧ ((runTrace (sessionInit prior p).1 evs).holdEverArmed = true →
        (runTrace (sessionInit prior p).1 evs).checkReg = false) :=
  eoiuInv_trace _ evs ⟨fun _ => rfl, fun hc => Bool.noConfusion hc⟩

/-- Witness for C8 on the concrete trace: the hold timer was armed along the
way and at the end the poll timer is indeed not registered. -/
theorem eoiuTimersMutex_c8_witness :
    (runTrace (sessionInit priorEx pEx).1 exTrace).holdEverArmed = true
    ∧ (runTrace (sessionInit priorEx pEx).1 exTrace).checkReg = false := by
  have hp := eoiuTimersMutex_c8 priorEx pEx exTrace (by decide)
  exact ⟨by decide, hp.2 (by decide)⟩

/-- Counting invariant: each of the two reconciliation triggers can add at
most one firing, because a timer only fires while registered, firing
deregisters it, the warm-start timer is never re-armed, and the hold timer
can only be armed by the (single) deregistering poll tick. -/
abbrev FireInv (s : St) : Prop :=
  s.warmFires + (if s.warmReg then 1 else 0) ≤ 1
  ∧ s.holdFires + (if s.holdReg then 1 else 0) + (if s.checkReg then 1 else 0) ≤ 1

/-- Every valid dispatch step preserves the counting invariant. -/
theorem fireInv_step (s : St) (e : Ev) (hv : validEv s e = true) (h : FireInv s) :
    FireInv (dispatchStep s e) := by
  obtain ⟨h1, h2⟩ := h
  cases e with
  | warmFire =>
    simp only [validEv] at hv
    simp only [dispatchStep]
    refine ⟨?_, h2⟩
    rw [hv] at h1
    simp at h1 ⊢
    omega
  | holdFire =>
    simp only [validEv] at hv
    simp only [dispatchStep]
    refine ⟨h1, ?_⟩
    rw [hv] at h2
    simp at h2 ⊢
    cases hc : s.checkReg
    all_goals simp [hc] at h2 ⊢
    all_goals omega
  | checkFire v4 v6 ival =>
    simp only [validEv] at hv
    have h2full := h2
    rw [hv] at h2
    simp at h2
    have hbr : s.holdReg = false := by
      cases hb : s.holdReg
      · rfl
      · rw [hb] at h2
        simp at h2
    rw [hbr] at h2
    simp at h2
    simp only [dispatchStep]
    split_ifs with hs hf hi
    · refine ⟨h1, ?_⟩
      simp
      omega
    · refine ⟨h1, ?_⟩
      simp
      omega
    · exact ⟨h1, h2full⟩
    · refine ⟨h1, ?_⟩
      simp [hbr, hv]
      omega
  | cfg batch => exact ⟨h1, h2⟩
  | resp keys => exact ⟨h1, h2⟩
  | feed enq idleT =>
    simp only [dispatchStep, stepAfterSources]
    split_ifs
    all_goals exact ⟨h1, h2⟩
  | idleWake idleT =>
    simp only [dispatchStep, stepAfterSources]
    split_ifs
    all_goals exact ⟨h1, h2⟩

/-- The counting invariant propagates along any valid trace. -/
theorem fireInv_trace (s : St) (evs : List Ev) (hv : validTrace s evs = true)
    (h : FireInv s) : FireInv (runTrace s evs) := by
  induction evs generalizing s with
  | nil => exact h
  | cons e es ih =>
    simp only [validTrace, Bool.and_eq_true] at hv
    exact ih (dispatchStep s e) hv.2 (fireInv_step s e hv.1 h)

/-- C2 (amended): along every valid session trace the reconciliation-complete
branch is triggered at most once by the warm-start deadline timer and at
most once by the EOIU hold timer, hence it executes at most twice per
session (not at most once: both timers can be armed simultaneously). -/
theorem reconcilePerTimer_c2 (prior : St) (p : InitParams) (evs : List Ev)
    (h : validTrace (sessionInit prior p).1 evs = true) :
    (runTrace (sessionInit prior p).1 evs).warmFires ≤ 1
    ∧ (runTrace (sessionInit prior p).1 evs).holdFires ≤ 1
    ∧ (runTrace (sessionInit prior p).1 evs).warmFires
      + (runTrace (sessionInit prior p).1 evs).holdFires ≤ 2 := by
  have hinit : FireInv (sessionInit prior p).1 := by
    obtain ⟨we, rt, dw⟩ := p
    cases we <;> cases dw <;> simp [FireInv, sessionInit]
  have hfin := fireInv_trace _ evs h hinit
  obtain ⟨f1, f2⟩ := hfin
  have hw := le_trans (Nat.le_add_right _ _) f1
  have hh := le_trans (le_trans (Nat.le_add_right _ _) (Nat.le_add_right _ _)) f2
  exact ⟨hw, hh, by omega⟩

/-- Witness for C2 (amended) on the concrete double-firing trace: both
per-timer counts are at their bound 1. -/
theorem reconcilePerTimer_c2_witness :
    (runTrace (sessionInit priorEx pEx).1 exTrace).warmFires ≤ 1
    ∧ (runTrace (sessionInit priorEx pEx).1 exTrace).holdFires ≤ 1 := by
  have hp := reconcilePerTimer_c2 priorEx pEx exTrace (by decide)
  exact ⟨hp.1, hp.2.1⟩

end Fpmsyncd
